import Mathlib

/-!
Verification of the xeogl `Plane` geometry component.

Shallow embedding of `src/extras/geometry/plane.js`:

* JS numbers are modelled as rationals (`ℚ`); `Math.floor` is `Int.floor`.
* The `_buildGrid` tessellation routine becomes the pure function
  `Plane.buildGrid : GridParams → MeshBuffers`; the JS typed arrays become
  `List ℚ` / `List ℕ`, built by flat-mapping the loop bodies over the loop
  ranges (`Float32Array` is zero-initialised, so a slot the loop never
  writes holds `0`, and the written triple `[x, -y, 0]` is the full chunk
  the inner iteration contributes at its offset).
* The reactive shell (property setters, the `_gridDirty` flag, `scene.once`
  scheduling, `fire` events, `warn` diagnostics) becomes an explicit state
  machine on `Plane.PlaneState`; `scene.once("tick2", cb)` registrations are
  counted by the `pending` field, and the delivery of one such callback is
  `fireRebuildCallback`, whose body follows the source order:
  `self._buildGrid(); self.__dirty = false`.
-/

namespace Plane

/-- The stored grid parameters (`this._xSize`, `this._ySize`,
`this._xSegments`, `this._ySegments`, `this._lod`). -/
structure GridParams where
  xSize : ℚ
  ySize : ℚ
  xSegments : ℚ
  ySegments : ℚ
  lod : ℚ
deriving DecidableEq

/-- Choice of `Uint16Array` versus `Uint32Array` as the element type of the index
buffer (plane.js line 123). -/
inductive IndexWidth where
  | u16 : IndexWidth
  | u32 : IndexWidth
deriving DecidableEq

/-- The four buffers `_buildGrid` produces, plus the index element type it
chose. -/
structure MeshBuffers where
  positions : List ℚ
  normals : List ℚ
  uvs : List ℚ
  indices : List ℕ
  indexWidth : IndexWidth
deriving DecidableEq

/-- Line 70: `var xSegments = Math.floor(this._lod * this._xSegments)`. -/
def xSegmentsE (p : GridParams) : ℤ := ⌊p.lod * p.xSegments⌋

/-- Line 71: `var ySegments = Math.floor(this._lod * this._ySegments)`. -/
def ySegmentsE0 (p : GridParams) : ℤ := ⌊p.lod * p.ySegments⌋

/-- Lines 71-79: the `if (ySegments < 4) ySegments = 4;` clamp, which the
source repeats twice (the second test is idempotent but we keep it). -/
def ySegmentsE (p : GridParams) : ℤ :=
  let y1 := if ySegmentsE0 p < 4 then 4 else ySegmentsE0 p
  if y1 < 4 then 4 else y1

/-- Line 84: `var gridX = Math.floor( xSegments ) || 1`; `xSegments` is
already an integer, so the inner `Math.floor` is the identity, and `|| 1`
replaces `0` by `1`. -/
def gridXZ (p : GridParams) : ℤ := if xSegmentsE p = 0 then 1 else xSegmentsE p

/-- Line 85: `var gridY = Math.floor( ySegments ) || 1`. -/
def gridYZ (p : GridParams) : ℤ := if ySegmentsE p = 0 then 1 else ySegmentsE p

/-- The value `gridX` as a natural number, for sizing the buffers.  (`new
Float32Array(n)` requires `n ≥ 0`; for sanitized parameters `gridXZ ≥ 1`,
see `gridXZ_pos`, so no information is lost by `Int.toNat`.) -/
def gridXN (p : GridParams) : ℕ := (gridXZ p).toNat

/-- The value `gridY` as a natural number. -/
def gridYN (p : GridParams) : ℕ := (gridYZ p).toNat

/-- Line 90: `var segmentWidth = width / gridX`. -/
def segmentWidth (p : GridParams) : ℚ := p.xSize / (gridXN p : ℚ)

/-- Line 91: `var segmentHeight = height / gridY`. -/
def segmentHeight (p : GridParams) : ℚ := p.ySize / (gridYN p : ℚ)

/-- The `_buildGrid` routine, lines 63-150 of plane.js, as a pure function
of the stored parameters.  Each buffer is produced by the doubly nested
loop of the source; the chunk the inner iteration appends at its offset is
spelled out, with `0` for the slots the loop leaves at their
`Float32Array` zero initialisation (`positions[offset+2]`,
`normals[offset]`, `normals[offset+1]`). -/
def buildGrid (p : GridParams) : MeshBuffers :=
  let width := p.xSize
  let height := p.ySize
  let halfWidth := width / 2
  let halfHeight := height / 2
  let gridX := gridXN p
  let gridY := gridYN p
  let gridX1 := gridX + 1
  let gridY1 := gridY + 1
  let segW := segmentWidth p
  let segH := segmentHeight p
  let positions := (List.range gridY1).flatMap fun iy =>
    (List.range gridX1).flatMap fun ix =>
      [(ix : ℚ) * segW - halfWidth, -((iy : ℚ) * segH - halfHeight), 0]
  let normals := (List.range gridY1).flatMap fun _ =>
    (List.range gridX1).flatMap fun _ => [(0 : ℚ), 0, -1]
  let uvs := (List.range gridY1).flatMap fun iy =>
    (List.range gridX1).flatMap fun ix =>
      [((gridX : ℚ) - ix) / gridX, 1 - ((gridY : ℚ) - iy) / gridY]
  let indices := (List.range gridY).flatMap fun iy =>
    (List.range gridX).flatMap fun ix =>
      let a := ix + gridX1 * iy
      let b := ix + gridX1 * (iy + 1)
      let c := (ix + 1) + gridX1 * (iy + 1)
      let d := (ix + 1) + gridX1 * iy
      [d, b, a, d, c, b]
  let indexWidth :=
    if positions.length / 3 > 65535 then IndexWidth.u32 else IndexWidth.u16
  { positions := positions
    normals := normals
    uvs := uvs
    indices := indices
    indexWidth := indexWidth }

/-- Parameters as the setters leave them: positive sizes and segment
counts, `lod` in `[0,1]`. -/
def Valid (p : GridParams) : Prop :=
  0 < p.xSize ∧ 0 < p.ySize ∧ 0 < p.xSegments ∧ 0 < p.ySegments ∧
    0 ≤ p.lod ∧ p.lod ≤ 1

instance : DecidablePred Valid := fun p => by
  unfold Valid; infer_instance

/-- The observable state of one `XEO.Plane` component: the five stored
parameters, the `__dirty` flag, the number of `scene.once("tick2", ...)`
rebuild callbacks registered and not yet delivered, the `fire`d change
events (name, payload) in order, the `warn` messages in order, and the
buffers installed by the last rebuild. -/
structure PlaneState where
  lod : ℚ
  xSize : ℚ
  ySize : ℚ
  xSegments : ℚ
  ySegments : ℚ
  dirty : Bool
  pending : ℕ
  events : List (String × ℚ)
  warnings : List String
  buffers : Option MeshBuffers
deriving DecidableEq

/-- Event emission `this.fire(name, value)`: append a change notification. -/
def fire (s : PlaneState) (name : String) (v : ℚ) : PlaneState :=
  { s with events := s.events ++ [(name, v)] }

/-- Diagnostic `this.warn(msg)`: append a warning message. -/
def warn (s : PlaneState) (msg : String) : PlaneState :=
  { s with warnings := s.warnings ++ [msg] }

/-- Method `_gridDirty` (lines 51-61): if the flag is clear, set it and register
one `scene.once("tick2", ...)` rebuild callback; otherwise do nothing. -/
def gridDirty (s : PlaneState) : PlaneState :=
  if s.dirty then s
  else { s with dirty := true, pending := s.pending + 1 }

/-- The stored parameters of a state, as fed to `_buildGrid`. -/
def params (s : PlaneState) : GridParams :=
  { xSize := s.xSize
    ySize := s.ySize
    xSegments := s.xSegments
    ySegments := s.ySegments
    lod := s.lod }

/-- The `lod` setter (lines 166-190).  The argument is `none` for a JS
`undefined` input. -/
def setLod (s : PlaneState) (value? : Option ℚ) : PlaneState :=
  let value := value?.getD 1
  if s.lod = value then s
  else
    let s1 := if value < 0 ∨ 1 < value then warn s "clamping lod to [0..1]" else s
    let value := if value < 0 ∨ 1 < value then (if value < 0 then (0 : ℚ) else 1) else value
    let s2 := { s1 with lod := value }
    let s3 := gridDirty s2
    fire s3 "lod" s3.lod

/-- The `xSize` setter (lines 208-232).  `value = value || 1` maps both
`undefined` and `0` to the default `1`. -/
def setXSize (s : PlaneState) (value? : Option ℚ) : PlaneState :=
  let value := match value? with
    | none => (1 : ℚ)
    | some v => if v = 0 then 1 else v
  if s.xSize = value then s
  else
    let s1 := if value < 0 then warn s "negative xSize not allowed - will invert" else s
    let value := if value < 0 then value * (-1) else value
    let s2 := { s1 with xSize := value }
    let s3 := gridDirty s2
    fire s3 "xSize" s3.xSize

/-- The `ySize` setter (lines 250-274); the default is `0.25`. -/
def setYSize (s : PlaneState) (value? : Option ℚ) : PlaneState :=
  let value := match value? with
    | none => (1 / 4 : ℚ)
    | some v => if v = 0 then 1 / 4 else v
  if s.ySize = value then s
  else
    let s1 := if value < 0 then warn s "negative ySize not allowed - will invert" else s
    let value := if value < 0 then value * (-1) else value
    let s2 := { s1 with ySize := value }
    let s3 := gridDirty s2
    fire s3 "ySize" s3.ySize

/-- The `xSegments` setter (lines 292-316); the default is `4`. -/
def setXSegments (s : PlaneState) (value? : Option ℚ) : PlaneState :=
  let value := match value? with
    | none => (4 : ℚ)
    | some v => if v = 0 then 4 else v
  if s.xSegments = value then s
  else
    let s1 := if value < 0 then warn s "negative xSegments not allowed - will invert" else s
    let value := if value < 0 then value * (-1) else value
    let s2 := { s1 with xSegments := value }
    let s3 := gridDirty s2
    fire s3 "xSegments" s3.xSegments

/-- The `ySegments` setter (lines 334-358); the default is `4`. -/
def setYSegments (s : PlaneState) (value? : Option ℚ) : PlaneState :=
  let value := match value? with
    | none => (4 : ℚ)
    | some v => if v = 0 then 4 else v
  if s.ySegments = value then s
  else
    let s1 := if value < 0 then warn s "negative ySegments not allowed - will invert" else s
    let value := if value < 0 then value * (-1) else value
    let s2 := { s1 with ySegments := value }
    let s3 := gridDirty s2
    fire s3 "ySegments" s3.ySegments

/-- Call `self._buildGrid()` as a state transformer: recompute the four buffers
from the stored parameters and install them. -/
def rebuildBuffers (s : PlaneState) : PlaneState :=
  { s with buffers := some (buildGrid (params s)) }

/-- One of the five property mutations an observer can perform. -/
inductive Mutation where
  | mLod (v : Option ℚ) : Mutation
  | mXSize (v : Option ℚ) : Mutation
  | mYSize (v : Option ℚ) : Mutation
  | mXSegments (v : Option ℚ) : Mutation
  | mYSegments (v : Option ℚ) : Mutation
deriving DecidableEq

/-- Run one property mutation. -/
def applyMutation (m : Mutation) (s : PlaneState) : PlaneState :=
  match m with
  | .mLod v => setLod s v
  | .mXSize v => setXSize s v
  | .mYSize v => setYSize s v
  | .mXSegments v => setXSegments s v
  | .mYSegments v => setYSegments s v

/-- Delivery of one registered `tick2` rebuild callback (lines 55-59).
`handler` stands for whatever parameter mutations event observers perform
while the rebuild executes (the buffer installations inside `_buildGrid`
fire events on the base class).  The source order is: the registration is
consumed, `self._buildGrid()` runs (with the observers inside it), and
only then `self.__dirty = false`. -/
def fireRebuildCallback (handler : PlaneState → PlaneState) (s : PlaneState) : PlaneState :=
  let s0 := { s with pending := s.pending - 1 }
  let s1 := rebuildBuffers s0
  let s2 := handler s1
  { s2 with dirty := false }

/-! ## Helper lemmas: flat-mapped loops with constant-size chunks -/

/-- A loop over `range n` appending `k` elements per iteration produces
`n * k` elements. -/
lemma length_flatMap_const {α : Type} (f : ℕ → List α) (k : ℕ)
    (hk : ∀ i, (f i).length = k) (n : ℕ) :
    ((List.range n).flatMap f).length = n * k := by
  induction n with
  | zero => simp
  | succ m ih =>
    rw [List.range_succ, List.flatMap_append, List.length_append, ih]
    simp [hk, Nat.succ_mul]

/-- Dropping `i` whole chunks from a constant-chunk loop over
`range' s n` leaves the loop over `range' (s+i) (n-i)`. -/
lemma drop_flatMap_range' {α : Type} (f : ℕ → List α) (k : ℕ)
    (hk : ∀ i, (f i).length = k) :
    ∀ (i n s : ℕ), i ≤ n →
      ((List.range' s n).flatMap f).drop (k * i) =
        (List.range' (s + i) (n - i)).flatMap f := by
  intro i
  induction i with
  | zero => intro n s _; simp
  | succ j ih =>
    intro n s h
    obtain ⟨m, rfl⟩ : ∃ m, n = m + 1 := ⟨n - 1, by omega⟩
    rw [List.range'_succ, List.flatMap_cons]
    have h1 : k * (j + 1) = k + k * j := by ring
    rw [h1, ← List.drop_drop, List.drop_left' (hk s)]
    have h2 : s + 1 + j = s + (j + 1) := by omega
    have h3 : m - j = m + 1 - (j + 1) := by omega
    rw [ih m (s + 1) (by omega), h2, h3]

/-- Lemma `drop_flatMap_range'` specialised to `range n`. -/
lemma drop_flatMap_range {α : Type} (f : ℕ → List α) (k : ℕ)
    (hk : ∀ i, (f i).length = k) (n i : ℕ) (h : i ≤ n) :
    ((List.range n).flatMap f).drop (k * i) = (List.range' i (n - i)).flatMap f := by
  rw [List.range_eq_range', drop_flatMap_range' f k hk i n 0 h, Nat.zero_add]

/-- In a constant-chunk loop over `range n` (possibly followed by further
output), the `k` elements at offset `k*i` are exactly the chunk of
iteration `i`. -/
lemma take_drop_flatMap_range {α : Type} (f : ℕ → List α) (k : ℕ)
    (hk : ∀ i, (f i).length = k) (n i : ℕ) (h : i < n) (tail : List α) :
    ((((List.range n).flatMap f) ++ tail).drop (k * i)).take k = f i := by
  have hlen : ((List.range n).flatMap f).length = n * k := length_flatMap_const f k hk n
  have hle : k * i ≤ ((List.range n).flatMap f).length := by
    rw [hlen, Nat.mul_comm n k]
    exact Nat.mul_le_mul_left k h.le
  rw [List.drop_append_of_le_length hle, drop_flatMap_range f k hk n i h.le]
  obtain ⟨m, hm⟩ : ∃ m, n - i = m + 1 := ⟨n - i - 1, by omega⟩
  rw [hm, List.range'_succ, List.flatMap_cons, List.append_assoc]
  exact List.take_left' (hk i)

/-- The doubly nested loop over `range ny × range nx` with a `k`-element
chunk per inner iteration: the chunk of iteration `(iy, ix)` sits at
offset `k * (iy * nx + ix)`. -/
lemma take_drop_nested {α : Type} (g : ℕ → ℕ → List α) (k nx ny : ℕ)
    (hk : ∀ iy ix, (g iy ix).length = k) (iy ix : ℕ) (hy : iy < ny) (hx : ix < nx) :
    (((List.range ny).flatMap fun j => (List.range nx).flatMap (g j)).drop
        (k * (iy * nx + ix))).take k = g iy ix := by
  have hrow : ∀ j, ((List.range nx).flatMap (g j)).length = nx * k :=
    fun j => length_flatMap_const (g j) k (hk j) nx
  have hsplit : k * (iy * nx + ix) = nx * k * iy + k * ix := by ring
  rw [hsplit, ← List.drop_drop,
    drop_flatMap_range (fun j => (List.range nx).flatMap (g j)) (nx * k) hrow ny iy hy.le]
  obtain ⟨m, hm⟩ : ∃ m, ny - iy = m + 1 := ⟨ny - iy - 1, by omega⟩
  rw [hm, List.range'_succ, List.flatMap_cons]
  exact take_drop_flatMap_range (g iy) k (hk iy) nx ix hx _

/-! ## The four buffers, unfolded -/

lemma buildGrid_positions (p : GridParams) :
    (buildGrid p).positions =
      (List.range (gridYN p + 1)).flatMap fun iy =>
        (List.range (gridXN p + 1)).flatMap fun ix =>
          [(ix : ℚ) * segmentWidth p - p.xSize / 2,
            -((iy : ℚ) * segmentHeight p - p.ySize / 2), 0] := rfl

lemma buildGrid_normals (p : GridParams) :
    (buildGrid p).normals =
      (List.range (gridYN p + 1)).flatMap fun _ =>
        (List.range (gridXN p + 1)).flatMap fun _ => [(0 : ℚ), 0, -1] := rfl

lemma buildGrid_uvs (p : GridParams) :
    (buildGrid p).uvs =
      (List.range (gridYN p + 1)).flatMap fun iy =>
        (List.range (gridXN p + 1)).flatMap fun ix =>
          [((gridXN p : ℚ) - ix) / gridXN p,
            1 - ((gridYN p : ℚ) - iy) / gridYN p] := rfl

lemma buildGrid_indices (p : GridParams) :
    (buildGrid p).indices =
      (List.range (gridYN p)).flatMap fun iy =>
        (List.range (gridXN p)).flatMap fun ix =>
          [(ix + 1) + (gridXN p + 1) * iy,
            ix + (gridXN p + 1) * (iy + 1),
            ix + (gridXN p + 1) * iy,
            (ix + 1) + (gridXN p + 1) * iy,
            (ix + 1) + (gridXN p + 1) * (iy + 1),
            ix + (gridXN p + 1) * (iy + 1)] := rfl

lemma buildGrid_positions_length (p : GridParams) :
    (buildGrid p).positions.length = (gridYN p + 1) * ((gridXN p + 1) * 3) := by
  rw [buildGrid_positions]
  apply length_flatMap_const
  intro iy
  apply length_flatMap_const
  intro ix
  rfl

/-- The parameter set used by the spec's worked example:
`width=2, height=2, gridX=1, gridY=4` (obtained with `lod = 1`). -/
def pex : GridParams :=
  { xSize := 2, ySize := 2, xSegments := 1, ySegments := 4, lod := 1 }

/-- A sample sanitized parameter set (the constructor defaults, with
`ySize` rounded up to `1` so that concrete evaluation stays on integral
rationals). -/
def pDefault : GridParams :=
  { xSize := 1, ySize := 1, xSegments := 4, ySegments := 4, lod := 1 }

lemma gridXN_pex : gridXN pex = 1 := by
  simp [gridXN, gridXZ, xSegmentsE, pex, Int.floor_one]

lemma gridYN_pex : gridYN pex = 4 := by
  simp [gridYN, gridYZ, ySegmentsE, ySegmentsE0, pex]

/-- C1. For every valid (post-sanitized) parameter set, the rebuild
routine produces buffers with `positions.length = 3*gridX1*gridY1`,
`normals.length = positions.length`, `uvs.length = 2*gridX1*gridY1` and
`indices.length = 6*gridX*gridY`, where `gridX1 = gridX+1`,
`gridY1 = gridY+1`. -/
theorem planeC1 (p : GridParams) (_hv : Valid p) :
    (buildGrid p).positions.length = 3 * ((gridXN p + 1) * (gridYN p + 1)) ∧
    (buildGrid p).normals.length = (buildGrid p).positions.length ∧
    (buildGrid p).uvs.length = 2 * ((gridXN p + 1) * (gridYN p + 1)) ∧
    (buildGrid p).indices.length = 6 * (gridXN p * gridYN p) := by
  have hp := buildGrid_positions_length p
  have hn : (buildGrid p).normals.length = (gridYN p + 1) * ((gridXN p + 1) * 3) := by
    rw [buildGrid_normals]
    apply length_flatMap_const
    intro iy
    apply length_flatMap_const
    intro ix
    rfl
  have hu : (buildGrid p).uvs.length = (gridYN p + 1) * ((gridXN p + 1) * 2) := by
    rw [buildGrid_uvs]
    apply length_flatMap_const
    intro iy
    apply length_flatMap_const
    intro ix
    rfl
  have hi : (buildGrid p).indices.length = gridYN p * (gridXN p * 6) := by
    rw [buildGrid_indices]
    apply length_flatMap_const
    intro iy
    apply length_flatMap_const
    intro ix
    rfl
  exact ⟨by rw [hp]; ring, by rw [hn, hp], by rw [hu]; ring, by rw [hi]; ring⟩

/-- Witness for C1 at the constructor-default parameters. -/
theorem planeC1_witness :
    Valid pDefault ∧
    ((buildGrid pDefault).positions.length =
        3 * ((gridXN pDefault + 1) * (gridYN pDefault + 1)) ∧
      (buildGrid pDefault).normals.length = (buildGrid pDefault).positions.length ∧
      (buildGrid pDefault).uvs.length =
        2 * ((gridXN pDefault + 1) * (gridYN pDefault + 1)) ∧
      (buildGrid pDefault).indices.length = 6 * (gridXN pDefault * gridYN pDefault)) :=
  ⟨by simp [Valid, pDefault], planeC1 pDefault (by simp [Valid, pDefault])⟩

/-- C2. The effective grid dimensions are
`gridX = max(1, floor(lod * xSegmentsBase))` and
`gridY = max(4, floor(lod * ySegmentsBase))`; for `lod = 0` the vertical
count is `4`, never `0`. -/
theorem planeC2 (p : GridParams) (h : 0 ≤ p.lod * p.xSegments) :
    gridXZ p = max 1 ⌊p.lod * p.xSegments⌋ ∧
    gridYZ p = max 4 ⌊p.lod * p.ySegments⌋ ∧
    (p.lod = 0 → gridYZ p = 4) := by
  have hx : (0 : ℤ) ≤ ⌊p.lod * p.xSegments⌋ := Int.floor_nonneg.mpr h
  refine ⟨?_, ?_, ?_⟩
  · simp only [gridXZ, xSegmentsE]
    split_ifs with h0 <;> omega
  · simp only [gridYZ, ySegmentsE, ySegmentsE0]
    split_ifs <;> omega
  · intro hl
    have h4 : ⌊p.lod * p.ySegments⌋ = 0 := by rw [hl, zero_mul, Int.floor_zero]
    simp only [gridYZ, ySegmentsE, ySegmentsE0, h4]
    norm_num

/-- Witness for C2 at the constructor-default parameters. -/
theorem planeC2_witness :
    0 ≤ pDefault.lod * pDefault.xSegments ∧
    (gridXZ pDefault = max 1 ⌊pDefault.lod * pDefault.xSegments⌋ ∧
      gridYZ pDefault = max 4 ⌊pDefault.lod * pDefault.ySegments⌋ ∧
      (pDefault.lod = 0 → gridYZ pDefault = 4)) :=
  ⟨by norm_num [pDefault], planeC2 pDefault (by norm_num [pDefault])⟩

/-- C3. The vertex at column `ix`, row `iy` is emitted at offset
`3*(iy*gridX1+ix)` of the position buffer and equals
`(ix*segmentWidth - width/2, -(iy*segmentHeight - height/2), 0)`. -/
theorem planeC3 (p : GridParams) (ix iy : ℕ)
    (hix : ix < gridXN p + 1) (hiy : iy < gridYN p + 1) :
    ((buildGrid p).positions.drop (3 * (iy * (gridXN p + 1) + ix))).take 3 =
      [(ix : ℚ) * segmentWidth p - p.xSize / 2,
        -((iy : ℚ) * segmentHeight p - p.ySize / 2), 0] := by
  rw [buildGrid_positions]
  exact take_drop_nested
    (fun iy ix => [(ix : ℚ) * segmentWidth p - p.xSize / 2,
      -((iy : ℚ) * segmentHeight p - p.ySize / 2), 0])
    3 (gridXN p + 1) (gridYN p + 1) (fun _ _ => rfl) iy ix hiy hix

/-- Witness for C3: the spec's worked example `width=2, height=2, gridX=1,
gridY=4`, vertex `(ix,iy) = (0,0)`, whose position is `(-1, 1, 0)`. -/
theorem planeC3_witness :
    0 < gridXN pex + 1 ∧ 0 < gridYN pex + 1 ∧
    ((buildGrid pex).positions.drop (3 * (0 * (gridXN pex + 1) + 0))).take 3 =
      [(-1 : ℚ), 1, 0] := by
  refine ⟨Nat.succ_pos _, Nat.succ_pos _, ?_⟩
  rw [planeC3 pex 0 0 (Nat.succ_pos _) (Nat.succ_pos _)]
  norm_num [segmentWidth, segmentHeight, gridXN_pex, gridYN_pex, pex]

/-- C4. For every cell `(ix, iy)`, with `a = ix+gridX1*iy`,
`b = ix+gridX1*(iy+1)`, `c = (ix+1)+gridX1*(iy+1)`, `d = (ix+1)+gridX1*iy`,
the index buffer holds at offset `6*(iy*gridX+ix)` exactly the two
triangles `(d, b, a)` and `(d, c, b)`, in that order. -/
theorem planeC4 (p : GridParams) (ix iy : ℕ)
    (hix : ix < gridXN p) (hiy : iy < gridYN p) :
    ((buildGrid p).indices.drop (6 * (iy * gridXN p + ix))).take 6 =
      [(ix + 1) + (gridXN p + 1) * iy,
        ix + (gridXN p + 1) * (iy + 1),
        ix + (gridXN p + 1) * iy,
        (ix + 1) + (gridXN p + 1) * iy,
        (ix + 1) + (gridXN p + 1) * (iy + 1),
        ix + (gridXN p + 1) * (iy + 1)] := by
  rw [buildGrid_indices]
  exact take_drop_nested
    (fun iy ix =>
      [(ix + 1) + (gridXN p + 1) * iy,
        ix + (gridXN p + 1) * (iy + 1),
        ix + (gridXN p + 1) * iy,
        (ix + 1) + (gridXN p + 1) * iy,
        (ix + 1) + (gridXN p + 1) * (iy + 1),
        ix + (gridXN p + 1) * (iy + 1)])
    6 (gridXN p) (gridYN p) (fun _ _ => rfl) iy ix hiy hix

/-- Witness for C4: cell `(0,0)` of the spec's worked example; the six
indices are `d,b,a,d,c,b = 1,2,0,1,3,2`. -/
theorem planeC4_witness :
    0 < gridXN pex ∧ 0 < gridYN pex ∧
    ((buildGrid pex).indices.drop (6 * (0 * gridXN pex + 0))).take 6 =
      [1, 2, 0, 1, 3, 2] := by
  have hx : 0 < gridXN pex := by rw [gridXN_pex]; exact Nat.one_pos
  have hy : 0 < gridYN pex := by rw [gridYN_pex]; norm_num
  refine ⟨hx, hy, ?_⟩
  rw [planeC4 pex 0 0 hx hy]
  simp [gridXN_pex]

/-- C5. The index-buffer element type is the wide 32-bit form iff the
vertex count `gridX1*gridY1` exceeds 65535; it is chosen once per build
from the vertex count actually produced (`positions.length / 3`). -/
theorem planeC5 (p : GridParams) :
    ((buildGrid p).indexWidth = IndexWidth.u32 ↔
      65535 < (gridXN p + 1) * (gridYN p + 1)) ∧
    (buildGrid p).positions.length / 3 = (gridXN p + 1) * (gridYN p + 1) := by
  have hw : (buildGrid p).indexWidth =
      if (buildGrid p).positions.length / 3 > 65535
      then IndexWidth.u32 else IndexWidth.u16 := rfl
  have hdiv : (buildGrid p).positions.length / 3 = (gridXN p + 1) * (gridYN p + 1) := by
    rw [buildGrid_positions_length, ← Nat.mul_assoc,
      Nat.mul_div_cancel _ (by norm_num), Nat.mul_comm]
  refine ⟨?_, hdiv⟩
  rw [hw, hdiv]
  split_ifs with hc
  · simp [hc]
  · simp [hc]

/-! ## Projections through the reactive primitives -/

@[simp] lemma gridDirty_lod (s : PlaneState) : (gridDirty s).lod = s.lod := by
  unfold gridDirty; split_ifs <;> rfl

@[simp] lemma gridDirty_xSize (s : PlaneState) : (gridDirty s).xSize = s.xSize := by
  unfold gridDirty; split_ifs <;> rfl

@[simp] lemma gridDirty_ySize (s : PlaneState) : (gridDirty s).ySize = s.ySize := by
  unfold gridDirty; split_ifs <;> rfl

@[simp] lemma gridDirty_xSegments (s : PlaneState) :
    (gridDirty s).xSegments = s.xSegments := by
  unfold gridDirty; split_ifs <;> rfl

@[simp] lemma gridDirty_ySegments (s : PlaneState) :
    (gridDirty s).ySegments = s.ySegments := by
  unfold gridDirty; split_ifs <;> rfl

@[simp] lemma gridDirty_events (s : PlaneState) : (gridDirty s).events = s.events := by
  unfold gridDirty; split_ifs <;> rfl

@[simp] lemma gridDirty_warnings (s : PlaneState) :
    (gridDirty s).warnings = s.warnings := by
  unfold gridDirty; split_ifs <;> rfl

lemma gridDirty_dirty_of_clean (s : PlaneState) (h : s.dirty = false) :
    (gridDirty s).dirty = true := by
  unfold gridDirty; rw [h]; simp

lemma gridDirty_pending_of_clean (s : PlaneState) (h : s.dirty = false) :
    (gridDirty s).pending = s.pending + 1 := by
  unfold gridDirty; rw [h]; simp

/-- While the dirty flag is set, no setter changes it or registers another
rebuild callback (`_gridDirty` is a no-op then). -/
lemma applyMutation_dirty_preserved (m : Mutation) (s : PlaneState) (h : s.dirty = true) :
    (applyMutation m s).dirty = true ∧ (applyMutation m s).pending = s.pending := by
  cases m <;>
    · simp only [applyMutation, setLod, setXSize, setYSize, setXSegments, setYSegments,
        gridDirty, fire, warn]
      split_ifs <;> simp_all

/-- Lemma `applyMutation_dirty_preserved`, folded over a list of mutations. -/
lemma foldl_mutations_dirty (ms : List Mutation) (s : PlaneState) (h : s.dirty = true) :
    (ms.foldl (fun t m => applyMutation m t) s).dirty = true ∧
    (ms.foldl (fun t m => applyMutation m t) s).pending = s.pending := by
  induction ms generalizing s with
  | nil => exact ⟨h, rfl⟩
  | cons m ms ih =>
    rw [List.foldl_cons]
    obtain ⟨h1, h2⟩ := applyMutation_dirty_preserved m s h
    obtain ⟨h3, h4⟩ := ih (applyMutation m s) h1
    exact ⟨h3, h4.trans h2⟩

/-- From a clean state, a setter call that is not a no-op sets the dirty
flag and registers exactly one rebuild callback. -/
lemma applyMutation_effect (m : Mutation) (s : PlaneState) (hd : s.dirty = false)
    (heff : applyMutation m s ≠ s) :
    (applyMutation m s).dirty = true ∧ (applyMutation m s).pending = s.pending + 1 := by
  cases m <;>
    · simp only [applyMutation, setLod, setXSize, setYSize, setXSegments, setYSegments,
        gridDirty, fire, warn] at heff ⊢
      split_ifs at heff ⊢ <;> simp_all

/-- A concrete state with the dirty flag set and one rebuild callback
registered, as left by one effective mutation from a fresh component. -/
def dirtyState : PlaneState :=
  { lod := 1, xSize := 1, ySize := 1, xSegments := 4, ySegments := 4,
    dirty := true, pending := 1, events := [], warnings := [], buffers := none }

/-- A concrete clean (non-dirty) state with no pending rebuild. -/
def cleanState : PlaneState :=
  { lod := 1, xSize := 1, ySize := 1, xSegments := 4, ySegments := 4,
    dirty := false, pending := 0, events := [], warnings := [], buffers := none }

/-- C6 counterexample: The claim says the dirty flag is cleared at the
START of the rebuild callback, so that a parameter mutation occurring
during the rebuild schedules a new rebuild.  In the source the callback is
`self._buildGrid(); self.__dirty = false`: the flag is still set while the
rebuild runs.  Concretely: from a dirty state with one registered
callback, a `lod := 0` mutation performed during the rebuild takes effect
(`lod = 0`, its change event fires) yet afterwards no rebuild callback is
registered (`pending = 0`) — the mutation's rebuild is lost, refuting the
claim. -/
theorem planeC6_counterexample :
    (fireRebuildCallback (fun t => setLod t (some 0)) dirtyState).lod = 0 ∧
    (fireRebuildCallback (fun t => setLod t (some 0)) dirtyState).events =
      [("lod", 0)] ∧
    (fireRebuildCallback (fun t => setLod t (some 0)) dirtyState).pending = 0 ∧
    (fireRebuildCallback (fun t => setLod t (some 0)) dirtyState).dirty = false := by
  refine ⟨rfl, rfl, rfl, rfl⟩

/-- C6 amended: The dirty flag is cleared synchronously at the END
of the rebuild callback, after the rebuild work runs; a parameter
mutation occurring during the rebuild finds the flag still set, so it
schedules no new rebuild callback (the count of registered callbacks
only drops by the one being consumed). -/
theorem planeC6_amended (m : Mutation) (s : PlaneState) (h : s.dirty = true) :
    (fireRebuildCallback (applyMutation m) s).dirty = false ∧
    (fireRebuildCallback (applyMutation m) s).pending = s.pending - 1 := by
  have h1 : (rebuildBuffers { s with pending := s.pending - 1 }).dirty = true := h
  obtain ⟨_, h2⟩ := applyMutation_dirty_preserved m _ h1
  refine ⟨rfl, ?_⟩
  show (applyMutation m (rebuildBuffers { s with pending := s.pending - 1 })).pending =
    s.pending - 1
  rw [h2]
  rfl

/-- Witness for the amended C6 at a concrete dirty state. -/
theorem planeC6_witness :
    dirtyState.dirty = true ∧
    ((fireRebuildCallback (applyMutation (Mutation.mLod (some 0))) dirtyState).dirty = false ∧
      (fireRebuildCallback (applyMutation (Mutation.mLod (some 0))) dirtyState).pending =
        dirtyState.pending - 1) :=
  ⟨rfl, planeC6_amended (Mutation.mLod (some 0)) dirtyState rfl⟩

/-- C7. Setting any of the five properties to its current stored value
returns early: the state is unchanged, so nothing is marked dirty, no
rebuild is scheduled, and no change notification is emitted.  (The
hypotheses say the stored values are sanitized — the setters never store
`0` in a `|| default` field.) -/
theorem planeC7 (s : PlaneState) (hx : s.xSize ≠ 0) (hy : s.ySize ≠ 0)
    (hxs : s.xSegments ≠ 0) (hys : s.ySegments ≠ 0) :
    setLod s (some s.lod) = s ∧ setXSize s (some s.xSize) = s ∧
    setYSize s (some s.ySize) = s ∧ setXSegments s (some s.xSegments) = s ∧
    setYSegments s (some s.ySegments) = s := by
  refine ⟨?_, ?_, ?_, ?_, ?_⟩ <;>
    simp [setLod, setXSize, setYSize, setXSegments, setYSegments, hx, hy, hxs, hys]

/-- Witness for C7 at a concrete state. -/
theorem planeC7_witness :
    cleanState.xSize ≠ 0 ∧ cleanState.ySize ≠ 0 ∧ cleanState.xSegments ≠ 0 ∧
    cleanState.ySegments ≠ 0 ∧
    (setLod cleanState (some cleanState.lod) = cleanState ∧
      setXSize cleanState (some cleanState.xSize) = cleanState ∧
      setYSize cleanState (some cleanState.ySize) = cleanState ∧
      setXSegments cleanState (some cleanState.xSegments) = cleanState ∧
      setYSegments cleanState (some cleanState.ySegments) = cleanState) :=
  ⟨by decide, by decide, by decide, by decide,
    planeC7 cleanState (by decide) (by decide) (by decide) (by decide)⟩

/-- C8. Setting `lod` to `-0.5` stores `0` and warns; setting it to
`1.5` stores `1` and warns; setting it to `undefined` leaves the stored
value at the default `1` without a warning. -/
theorem planeC8 (s : PlaneState) (h0 : 0 ≤ s.lod) (h1 : s.lod ≤ 1) :
    (setLod s (some (-(1 / 2)))).lod = 0 ∧
    (setLod s (some (-(1 / 2)))).warnings = s.warnings ++ ["clamping lod to [0..1]"] ∧
    (setLod s (some (3 / 2))).lod = 1 ∧
    (setLod s (some (3 / 2))).warnings = s.warnings ++ ["clamping lod to [0..1]"] ∧
    (setLod s none).lod = 1 ∧
    (setLod s none).warnings = s.warnings := by
  have hne1 : s.lod ≠ -(1 / 2) := fun hh => by rw [hh] at h0; norm_num at h0
  have hne2 : s.lod ≠ 3 / 2 := fun hh => by rw [hh] at h1; norm_num at h1
  refine ⟨?_, ?_, ?_, ?_, ?_, ?_⟩
  · norm_num [setLod, fire, warn, hne1]
  · norm_num [setLod, fire, warn, hne1]
  · norm_num [setLod, fire, warn, hne2]
  · norm_num [setLod, fire, warn, hne2]
  · by_cases hcase : s.lod = 1
    · simp [setLod, hcase]
    · norm_num [setLod, fire, warn, hcase]
  · by_cases hcase : s.lod = 1
    · simp [setLod, hcase]
    · norm_num [setLod, fire, warn, hcase]

/-- Witness for C8 at a concrete state with stored `lod = 1`. -/
theorem planeC8_witness :
    0 ≤ cleanState.lod ∧ cleanState.lod ≤ 1 ∧
    ((setLod cleanState (some (-(1 / 2)))).lod = 0 ∧
      (setLod cleanState (some (-(1 / 2)))).warnings =
        cleanState.warnings ++ ["clamping lod to [0..1]"] ∧
      (setLod cleanState (some (3 / 2))).lod = 1 ∧
      (setLod cleanState (some (3 / 2))).warnings =
        cleanState.warnings ++ ["clamping lod to [0..1]"] ∧
      (setLod cleanState none).lod = 1 ∧
      (setLod cleanState none).warnings = cleanState.warnings) :=
  ⟨by decide, by decide, planeC8 cleanState (by decide) (by decide)⟩

/-- C9. From a clean state with no pending rebuild, the first
effective mutation registers exactly one rebuild callback, and any
sequence of further mutations before the tick fires registers no
additional one: exactly one rebuild is pending by the next tick. -/
theorem planeC9 (s : PlaneState) (m1 : Mutation) (ms : List Mutation)
    (hclean : s.dirty = false) (hp : s.pending = 0)
    (heff : applyMutation m1 s ≠ s) :
    (ms.foldl (fun t m => applyMutation m t) (applyMutation m1 s)).pending = 1 ∧
    (ms.foldl (fun t m => applyMutation m t) (applyMutation m1 s)).dirty = true := by
  obtain ⟨h1, h2⟩ := applyMutation_effect m1 s hclean heff
  obtain ⟨h3, h4⟩ := foldl_mutations_dirty ms _ h1
  exact ⟨by rw [h4, h2, hp], h3⟩

/-- Witness for C9: two mutations in the same tick (`xSize := 2` then
`ySize := 2`) leave exactly one pending rebuild. -/
theorem planeC9_witness :
    cleanState.dirty = false ∧ cleanState.pending = 0 ∧
    applyMutation (Mutation.mXSize (some 2)) cleanState ≠ cleanState ∧
    (([Mutation.mYSize (some 2)].foldl (fun t m => applyMutation m t)
        (applyMutation (Mutation.mXSize (some 2)) cleanState)).pending = 1 ∧
      ([Mutation.mYSize (some 2)].foldl (fun t m => applyMutation m t)
        (applyMutation (Mutation.mXSize (some 2)) cleanState)).dirty = true) :=
  ⟨rfl, rfl, by decide,
    planeC9 cleanState (Mutation.mXSize (some 2)) [Mutation.mYSize (some 2)]
      rfl rfl (by decide)⟩

/-- C10. The no-op guard compares the raw (post-default) input with
the stored value BEFORE sanitization.  Hence `lod := 1.5` with stored
`lod = 1` passes the guard: it warns, clamps back to `1`, marks the grid
dirty, schedules a rebuild, and fires a `"lod"` event whose payload is
the unchanged stored value `1`; likewise `xSize := -xSize` warns,
sign-flips back to the stored value, marks dirty, schedules, and fires
an `"xSize"` event carrying the unchanged stored value. -/
theorem planeC10 (s : PlaneState) (hlod : s.lod = 1) (hx : 0 < s.xSize)
    (hd : s.dirty = false) :
    (setLod s (some (3 / 2))).lod = 1 ∧
    (setLod s (some (3 / 2))).dirty = true ∧
    (setLod s (some (3 / 2))).pending = s.pending + 1 ∧
    (setLod s (some (3 / 2))).events = s.events ++ [("lod", 1)] ∧
    (setLod s (some (3 / 2))).warnings = s.warnings ++ ["clamping lod to [0..1]"] ∧
    (setXSize s (some (-s.xSize))).xSize = s.xSize ∧
    (setXSize s (some (-s.xSize))).dirty = true ∧
    (setXSize s (some (-s.xSize))).pending = s.pending + 1 ∧
    (setXSize s (some (-s.xSize))).events = s.events ++ [("xSize", s.xSize)] ∧
    (setXSize s (some (-s.xSize))).warnings =
      s.warnings ++ ["negative xSize not allowed - will invert"] := by
  have hne : s.lod ≠ 3 / 2 := by rw [hlod]; norm_num
  have hxne : s.xSize ≠ -s.xSize := fun hh => by
    have h2 : s.xSize + s.xSize = 0 := by linarith
    linarith
  have hneg : -s.xSize < 0 := by linarith
  have hnz : -s.xSize ≠ 0 := neg_ne_zero.mpr (ne_of_gt hx)
  refine ⟨?_, ?_, ?_, ?_, ?_, ?_, ?_, ?_, ?_, ?_⟩ <;>
    norm_num [setLod, setXSize, fire, warn, hne, hxne, hneg, hnz, hd,
      gridDirty_dirty_of_clean, gridDirty_pending_of_clean]

/-- Witness for C10 at a concrete clean state with `lod = 1`,
`xSize = 1`. -/
theorem planeC10_witness :
    cleanState.lod = 1 ∧ 0 < cleanState.xSize ∧ cleanState.dirty = false ∧
    ((setLod cleanState (some (3 / 2))).lod = 1 ∧
      (setLod cleanState (some (3 / 2))).dirty = true ∧
      (setLod cleanState (some (3 / 2))).pending = cleanState.pending + 1 ∧
      (setLod cleanState (some (3 / 2))).events = cleanState.events ++ [("lod", 1)] ∧
      (setLod cleanState (some (3 / 2))).warnings =
        cleanState.warnings ++ ["clamping lod to [0..1]"] ∧
      (setXSize cleanState (some (-cleanState.xSize))).xSize = cleanState.xSize ∧
      (setXSize cleanState (some (-cleanState.xSize))).dirty = true ∧
      (setXSize cleanState (some (-cleanState.xSize))).pending = cleanState.pending + 1 ∧
      (setXSize cleanState (some (-cleanState.xSize))).events =
        cleanState.events ++ [("xSize", cleanState.xSize)] ∧
      (setXSize cleanState (some (-cleanState.xSize))).warnings =
        cleanState.warnings ++ ["negative xSize not allowed - will invert"]) :=
  ⟨rfl, by decide, rfl, planeC10 cleanState rfl (by decide) rfl⟩

end Plane
